import Mathlib

/-!
Shallow embedding of `img_maker_tele.py` (telegram-image-generator).

The program is a sequential polling bridge: poll Telegram for updates
(`get_prompt_from_tele`), generate an image for each text message
(`generate_img`), send the image or an error text back (`to_telegram` /
`send_information`), advance the `last_update_id` cursor, sleep, repeat
(`main`).

Modelling conventions:
* Python's substring test `needle in hay` is `hasSub hay needle`;
  `str.lower()` is `pyLower`; `prompt.strip() == ""` is
  `(pyStrip prompt).isEmpty` — all defined over `List Char` so that the
  kernel can evaluate them on concrete inputs.
* Network effects are oracles passed in as arguments: the poll transport is
  an `Except String (Nat × PollData)` (exception text, or HTTP status code
  paired with the parsed JSON body), and the image backend is a
  `String → Except String (Option Img)` (per-prompt exception text or a
  possibly-absent image object).
* `print` side effects that the claims mention are returned as lists of the
  exact log strings; Telegram send operations are recorded as `Call` values
  (the dispatch loop invoking a responder), not performed.
* A Python function that may raise is modelled with an explicit
  `raised`/`fault` constructor carrying the exception message.
-/

/-- Python `needle.isPrefixOf hay` over char lists (building block for `in`). -/
def isPrefixOfCh : List Char → List Char → Bool
  | [], _ => true
  | _ :: _, [] => false
  | a :: as, b :: bs => a == b && isPrefixOfCh as bs

/-- Occurs-as-contiguous-substring over char lists. -/
def infixOfCh (needle : List Char) : List Char → Bool
  | [] => isPrefixOfCh needle []
  | h :: rest => isPrefixOfCh needle (h :: rest) || infixOfCh needle rest

/-- Python `needle in hay` on strings. -/
def hasSub (hay needle : String) : Bool := infixOfCh needle.data hay.data

/-- Python `s.lower()` (ASCII case folding, which covers every string the
program matches on). -/
def pyLower (s : String) : String := ⟨s.data.map Char.toLower⟩

/-- Python `s.strip()`: drop leading and trailing whitespace. -/
def pyStrip (s : String) : List Char :=
  ((s.data.dropWhile Char.isWhitespace).reverse.dropWhile Char.isWhitespace).reverse

/-- Opaque handle for the PIL image object returned by the backend. -/
structure Img where
  pix : Nat
deriving DecidableEq

/-- The in-memory `io.BytesIO` buffer: the PNG-serialized image together with
the read position, which `img_bytes_arr.seek(0)` resets to `0`. -/
structure ImgBytes where
  content : Img
  pos : Nat
deriving DecidableEq

/-- Result of a call to `generate_img`: the uncaught `ValueError` for a
blank prompt (`raised`), the `io.BytesIO` success value (`imgResult`), the
quota advisory string (`strResult`), or `None` (`noneResult`). -/
inductive GenResult
  | raised (msg : String)
  | imgResult (buf : ImgBytes)
  | strResult (s : String)
  | noneResult
deriving DecidableEq

/-- The `ValueError` message raised for an empty or `None` prompt
(source line 103). -/
def emptyPromptMsg : String := "Prompt cannot be empty or None."

/-- The advisory returned by CASE 5 of the generator's handler
(source line 161). -/
def quotaWarningMsg : String :=
  "💳 QUOTA EXCEEDED: Your Hugging Face credit balance is depleted. Purchase credits or upgrade to Pro."

/-- The `except` handler of `generate_img` (source lines 135-170): an
if/elif chain over the lowercased exception text. Every branch except
CASE 5 falls through to the final `return None`. -/
def genHandle (error_str : String) : GenResult :=
  if hasSub error_str "401" || hasSub error_str "unauthorized" || hasSub error_str "token" then
    GenResult.noneResult
  else if hasSub error_str "429" || hasSub error_str "quota" then
    GenResult.noneResult
  else if hasSub error_str "503" || hasSub error_str "loading" then
    GenResult.noneResult
  else if hasSub error_str "connection" || hasSub error_str "max retries" then
    GenResult.noneResult
  else if hasSub error_str "credit balance" || hasSub error_str "depleted" || hasSub error_str "429" then
    GenResult.strResult quotaWarningMsg
  else
    GenResult.noneResult

/-- `generate_img(prompt)` (source lines 92-170). `prompt : Option String`
models a possibly-`None` argument; `backend` is the oracle for
`client.text_to_image`. The second component counts backend invocations.
A falsy image raises `ValueError("API returned an empty result (No Image).")`
inside the `try`, so it is routed through the same handler. -/
def generate_img (prompt : Option String) (backend : Except String (Option Img)) :
    GenResult × Nat :=
  match prompt with
  | none => (GenResult.raised emptyPromptMsg, 0)
  | some p =>
    if (pyStrip p).isEmpty then
      (GenResult.raised emptyPromptMsg, 0)
    else
      match backend with
      | Except.ok (some image) => (GenResult.imgResult ⟨image, 0⟩, 1)
      | Except.ok none => (genHandle (pyLower "API returned an empty result (No Image)."), 1)
      | Except.error e => (genHandle (pyLower e), 1)

/-- One Telegram update's `message` object: the fields the program reads
(`text`, `from.first_name`, `chat.id`), each possibly absent. -/
structure MsgBody where
  text : Option String
  from_first_name : Option String
  chat_id : Option Int
deriving DecidableEq

/-- One element of the `result` array: `update_id` plus an optional
`message` object. -/
structure TMessage where
  update_id : Nat
  message : Option MsgBody
deriving DecidableEq

/-- A parsed `getUpdates` JSON body: the optional `result` array (the only
key the program reads) plus whatever other key/value pairs the body holds
(e.g. `ok`, `error_code`, `description` on a platform error body). -/
structure PollData where
  result : Option (List TMessage)
  extra : List (String × String)
deriving DecidableEq

/-- `get_prompt_from_tele(last_update_id)` (source lines 36-87). The
transport oracle stands for `requests.get(...)` + `response.json()`: on
success the parsed body is returned unchanged (the status code is never
inspected); on exception the lowercased text is classified by the inline
if/elif chain, the shown lines are printed, and `{}` is returned. -/
def get_prompt_from_tele (transport : Except String (Nat × PollData)) :
    PollData × List String :=
  match transport with
  | Except.ok (_status, body) => (body, [])
  | Except.error e =>
    if hasSub (pyLower e) "connection" || hasSub (pyLower e) "max retries"
        || hasSub (pyLower e) "failed to resolve" then
      (⟨none, []⟩, ["❌ NETWORK ERROR: Failed to fetch updates from Telegram. Check internet/DNS."])
    else if hasSub (pyLower e) "read timed out" then
      (⟨none, []⟩, ["⏳ Polling cycle refreshed (No new messages)."])
    else if hasSub (pyLower e) "ssl" then
      (⟨none, []⟩, ["🔒 SSL ERROR: Certificate verification failed."])
    else
      (⟨none, []⟩, ["❌ POLLING ERROR: An unknown error occurred while fetching updates.",
        "   (Error details hidden for security)"])

/-- Destination passed to the responders: `chat.id` when present, else the
`"Unknown"` sentinel from `.get("chat", {}).get("id", "Unknown")`. -/
inductive Dest
  | chat (id : Int)
  | unknownDest
deriving DecidableEq

/-- `chat_id` extraction with its default. -/
def destOf : Option Int → Dest
  | some i => Dest.chat i
  | none => Dest.unknownDest

/-- A responder invocation made by the dispatch loop: `to_telegram`
(sendPhoto) or `send_information` (sendMessage). -/
inductive Call
  | sendImage (sender : String) (dest : Dest) (caption : String) (img : ImgBytes)
  | sendText (sender : String) (dest : Dest) (text : String)
deriving DecidableEq

/-- The generic failure text sent when `generate_img` returns `None`
(source line 330). -/
def genericFailureMsg : String := "❌ Sorry, failed to generate image due to server error."

/-- What processing a single update does inside the loop body
(source lines 311-335): skip, make exactly one responder call, or let the
blank-prompt `ValueError` escape. -/
inductive MsgStep
  | skip
  | made (c : Call)
  | raisedStep (msg : String)
deriving DecidableEq

/-- Per-message step of the dispatch loop (source lines 316-335): guard on
`"message" in message and "text" in message["message"]`, default the sender
and chat id, call `generate_img`, and route its outcome. -/
def msgAction (backend : String → Except String (Option Img)) (m : TMessage) : MsgStep :=
  match m.message with
  | none => MsgStep.skip
  | some body =>
    match body.text with
    | none => MsgStep.skip
    | some prompt =>
      match (generate_img (some prompt) (backend prompt)).1 with
      | GenResult.raised msg => MsgStep.raisedStep msg
      | GenResult.noneResult =>
        MsgStep.made (Call.sendText (body.from_first_name.getD "Unknown") (destOf body.chat_id)
          genericFailureMsg)
      | GenResult.strResult s =>
        MsgStep.made (Call.sendText (body.from_first_name.getD "Unknown") (destOf body.chat_id) s)
      | GenResult.imgResult buf =>
        MsgStep.made (Call.sendImage (body.from_first_name.getD "Unknown") (destOf body.chat_id)
          prompt buf)

/-- Result of the `for message in data["result"]` loop: the final
`last_update_id`, the responder calls made, the number of `generate_img`
invocations, and the escaped exception message if the loop aborted. -/
structure ProcResult where
  luid : Nat
  calls : List Call
  genCalls : Nat
  fault : Option String
deriving DecidableEq

/-- The `for message in data["result"]` loop (source lines 311-335).
`last_update_id = message["update_id"]` runs first for every message, so the
cursor advances even for messages that are skipped or that fault. A raise
aborts the loop: later messages are not processed. -/
def processMessages (backend : String → Except String (Option Img)) :
    List TMessage → Nat → ProcResult
  | [], luid => ⟨luid, [], 0, none⟩
  | m :: rest, _ =>
    match msgAction backend m with
    | MsgStep.skip => processMessages backend rest m.update_id
    | MsgStep.made c =>
      let r := processMessages backend rest m.update_id
      ⟨r.luid, c :: r.calls, r.genCalls + 1, r.fault⟩
    | MsgStep.raisedStep msg => ⟨m.update_id, [], 1, some msg⟩

/-- The `except` handler of `main` (source lines 344-372): classify the
lowercased exception text, print the matching lines, then announce the 5 s
pause. -/
def mainFaultLines (error_str : String) : List String :=
  (if hasSub error_str "connection" || hasSub error_str "failed to resolve"
      || hasSub error_str "max retries" then
    ["\n❌ NETWORK ERROR: Failed to connect to Telegram. Check your internet or DNS."]
  else if hasSub error_str "timeout" then
    ["\n⏳ TIMEOUT ERROR: Telegram is not responding. Retrying..."]
  else if hasSub error_str "json" || hasSub error_str "decode" then
    ["\n⚠️ API ERROR: Invalid response from Telegram (Server might be down)."]
  else
    ["\n❌ CRITICAL ERROR: An unknown internal error occurred.",
      "   (Error details hidden for security)"])
  ++ ["🔄 Restarting polling in 5 seconds..."]

/-- Observable outcome of one iteration of `main`'s `while True` body:
final cursor variable, responder calls, `generate_img` invocation count,
the `time.sleep` duration taken (1 normal, 5 after a fault), the escaped
exception if any, whether the heartbeat branch ran, and the fault-handler
log lines. -/
structure IterResult where
  last_update_id : Nat
  calls : List Call
  genCalls : Nat
  sleep : Nat
  fault : Option String
  heartbeat : Bool
  faultLogs : List String
deriving DecidableEq

/-- One iteration of `main`'s loop (source lines 299-372), starting from
cursor value `last_update_id`. The poll is issued at offset
`last_update_id + 1`; its outcome is the `transport` oracle. If the body has
a non-empty `result`, the message loop runs; an escaping exception is caught
by the outer handler (classified on its lowercased text, 5 s pause),
otherwise the iteration ends with the normal 1 s sleep. -/
def mainIter (transport : Except String (Nat × PollData))
    (backend : String → Except String (Option Img)) (last_update_id : Nat) : IterResult :=
  match ((get_prompt_from_tele transport).1).result with
  | some msgs =>
    if 0 < msgs.length then
      match processMessages backend msgs last_update_id with
      | ⟨luid, calls, g, none⟩ => ⟨luid, calls, g, 1, none, false, []⟩
      | ⟨luid, calls, g, some msg⟩ =>
        ⟨luid, calls, g, 5, some msg, false, mainFaultLines (pyLower msg)⟩
    else ⟨last_update_id, [], 0, 1, none, true, []⟩
  | none => ⟨last_update_id, [], 0, 1, none, true, []⟩

/-- The offset the next poll will use: `last_update_id + 1` (source line
303). This is the spec's cursor, "the identifier of the last acknowledged
inbound message plus one". -/
def nextOffset (r : IterResult) : Nat := r.last_update_id + 1

/-- The error categories named by the spec's taxonomy, used to compare the
four inline classification chains. -/
inductive ErrCat
  | NETWORK | TIMEOUT | SSL | AUTH | QUOTA | BUSY | MALFORMED | UNKNOWN
deriving DecidableEq

/-- Classification chain inside `get_prompt_from_tele`'s handler
(source lines 68-84), as a function of the lowercased exception text. -/
def pollClassify (error_str : String) : ErrCat :=
  if hasSub error_str "connection" || hasSub error_str "max retries"
      || hasSub error_str "failed to resolve" then
    ErrCat.NETWORK
  else if hasSub error_str "read timed out" then
    ErrCat.TIMEOUT
  else if hasSub error_str "ssl" then
    ErrCat.SSL
  else
    ErrCat.UNKNOWN

/-- Classification chain inside `generate_img`'s handler
(source lines 144-168): both the 429/quota branch and the
credit-balance/depleted branch signal quota conditions. -/
def genClassify (error_str : String) : ErrCat :=
  if hasSub error_str "401" || hasSub error_str "unauthorized" || hasSub error_str "token" then
    ErrCat.AUTH
  else if hasSub error_str "429" || hasSub error_str "quota" then
    ErrCat.QUOTA
  else if hasSub error_str "503" || hasSub error_str "loading" then
    ErrCat.BUSY
  else if hasSub error_str "connection" || hasSub error_str "max retries" then
    ErrCat.NETWORK
  else if hasSub error_str "credit balance" || hasSub error_str "depleted"
      || hasSub error_str "429" then
    ErrCat.QUOTA
  else
    ErrCat.UNKNOWN

/-- Classification chain inside `to_telegram`'s handler
(source lines 222-236). -/
def respClassify (error_str : String) : ErrCat :=
  if hasSub error_str "connection" || hasSub error_str "failed to resolve"
      || hasSub error_str "max retries" then
    ErrCat.NETWORK
  else if hasSub error_str "timeout" then
    ErrCat.TIMEOUT
  else if hasSub error_str "ssl" || hasSub error_str "certificate" then
    ErrCat.SSL
  else
    ErrCat.UNKNOWN

/-- Classification chain inside `main`'s outer handler
(source lines 353-368). -/
def mainClassify (error_str : String) : ErrCat :=
  if hasSub error_str "connection" || hasSub error_str "failed to resolve"
      || hasSub error_str "max retries" then
    ErrCat.NETWORK
  else if hasSub error_str "timeout" then
    ErrCat.TIMEOUT
  else if hasSub error_str "json" || hasSub error_str "decode" then
    ErrCat.MALFORMED
  else
    ErrCat.UNKNOWN

/-- The poller's log lines as a function of the classification alone (its
handler prints fixed strings per category, never the exception text). -/
def pollLogOf : ErrCat → List String
  | ErrCat.NETWORK => ["❌ NETWORK ERROR: Failed to fetch updates from Telegram. Check internet/DNS."]
  | ErrCat.TIMEOUT => ["⏳ Polling cycle refreshed (No new messages)."]
  | ErrCat.SSL => ["🔒 SSL ERROR: Certificate verification failed."]
  | _ => ["❌ POLLING ERROR: An unknown error occurred while fetching updates.",
      "   (Error details hidden for security)"]

/-- First-match evaluation of an ordered rule list, defaulting to UNKNOWN:
the shape the spec ascribes to the classifier. -/
def firstMatch : List ((String → Bool) × ErrCat) → String → ErrCat
  | [], _ => ErrCat.UNKNOWN
  | r :: rs, s => if r.1 s then r.2 else firstMatch rs s

/-- The poller handler's rules in source order. -/
def pollRules : List ((String → Bool) × ErrCat) :=
  [(fun s => hasSub s "connection" || hasSub s "max retries" || hasSub s "failed to resolve",
      ErrCat.NETWORK),
    (fun s => hasSub s "read timed out", ErrCat.TIMEOUT),
    (fun s => hasSub s "ssl", ErrCat.SSL)]

/-- The generator handler's rules in source order. -/
def genRules : List ((String → Bool) × ErrCat) :=
  [(fun s => hasSub s "401" || hasSub s "unauthorized" || hasSub s "token", ErrCat.AUTH),
    (fun s => hasSub s "429" || hasSub s "quota", ErrCat.QUOTA),
    (fun s => hasSub s "503" || hasSub s "loading", ErrCat.BUSY),
    (fun s => hasSub s "connection" || hasSub s "max retries", ErrCat.NETWORK),
    (fun s => hasSub s "credit balance" || hasSub s "depleted" || hasSub s "429", ErrCat.QUOTA)]

/-- The `to_telegram` handler's rules in source order. -/
def respRules : List ((String → Bool) × ErrCat) :=
  [(fun s => hasSub s "connection" || hasSub s "failed to resolve" || hasSub s "max retries",
      ErrCat.NETWORK),
    (fun s => hasSub s "timeout", ErrCat.TIMEOUT),
    (fun s => hasSub s "ssl" || hasSub s "certificate", ErrCat.SSL)]

/-- The dispatch loop handler's rules in source order. -/
def mainRules : List ((String → Bool) × ErrCat) :=
  [(fun s => hasSub s "connection" || hasSub s "failed to resolve" || hasSub s "max retries",
      ErrCat.NETWORK),
    (fun s => hasSub s "timeout", ErrCat.TIMEOUT),
    (fun s => hasSub s "json" || hasSub s "decode", ErrCat.MALFORMED)]

/-- Maximum `update_id` in a batch (0 for an empty batch). -/
def maxId : List TMessage → Nat
  | [] => 0
  | m :: rest => max m.update_id (maxId rest)

/-- The batch's `update_id`s are in ascending order, as the platform
delivers them. -/
def ascIds : List TMessage → Bool
  | [] => true
  | [_] => true
  | a :: b :: rest => decide (a.update_id ≤ b.update_id) && ascIds (b :: rest)

/-- Every `update_id` in the batch exceeds the cursor `c`, as holds for a
poll issued at offset `c + 1`. -/
def allIdsGt (c : Nat) (msgs : List TMessage) : Bool :=
  msgs.all fun m => decide (c < m.update_id)

/-- The final cursor of the message loop is either the value it started
with (empty batch) or the `update_id` of some message of the batch: the
cursor only ever takes values observed in messages. -/
theorem processMessages_luid_mem (backend : String → Except String (Option Img))
    (msgs : List TMessage) (L : Nat) :
    (processMessages backend msgs L).luid = L ∨
      ∃ m ∈ msgs, (processMessages backend msgs L).luid = m.update_id := by
  induction msgs generalizing L with
  | nil => exact Or.inl rfl
  | cons m rest ih =>
    simp only [processMessages]
    cases h : msgAction backend m with
    | skip =>
      rcases ih m.update_id with h1 | ⟨m2, hm2, h2⟩
      · exact Or.inr ⟨m, by simp, h1⟩
      · exact Or.inr ⟨m2, by simp [hm2], h2⟩
    | made c =>
      rcases ih m.update_id with h1 | ⟨m2, hm2, h2⟩
      · exact Or.inr ⟨m, by simp, h1⟩
      · exact Or.inr ⟨m2, by simp [hm2], h2⟩
    | raisedStep msg => exact Or.inr ⟨m, by simp, rfl⟩

/-- Unfolding lemma: a skipped message only advances the cursor. -/
theorem processMessages_cons_skip (backend : String → Except String (Option Img))
    (m : TMessage) (rest : List TMessage) (L : Nat) (h : msgAction backend m = MsgStep.skip) :
    processMessages backend (m :: rest) L = processMessages backend rest m.update_id := by
  simp [processMessages, h]

/-- Unfolding lemma: a message that makes a responder call prepends it and
counts one generation. -/
theorem processMessages_cons_made (backend : String → Except String (Option Img))
    (m : TMessage) (rest : List TMessage) (L : Nat) (c : Call)
    (h : msgAction backend m = MsgStep.made c) :
    processMessages backend (m :: rest) L =
      ⟨(processMessages backend rest m.update_id).luid,
        c :: (processMessages backend rest m.update_id).calls,
        (processMessages backend rest m.update_id).genCalls + 1,
        (processMessages backend rest m.update_id).fault⟩ := by
  simp [processMessages, h]

/-- Unfolding lemma: a raising message aborts the loop at its own id. -/
theorem processMessages_cons_raised (backend : String → Except String (Option Img))
    (m : TMessage) (rest : List TMessage) (L : Nat) (msg : String)
    (h : msgAction backend m = MsgStep.raisedStep msg) :
    processMessages backend (m :: rest) L = ⟨m.update_id, [], 1, some msg⟩ := by
  simp [processMessages, h]

/-- When the batch's ids are ascending and the message loop completes
without an escaping exception, the final cursor is the batch's maximum
`update_id`. -/
theorem processMessages_luid_max (backend : String → Except String (Option Img)) :
    ∀ (msgs : List TMessage) (L : Nat), msgs ≠ [] → ascIds msgs = true →
      (processMessages backend msgs L).fault = none →
      (processMessages backend msgs L).luid = maxId msgs := by
  intro msgs
  induction msgs with
  | nil => intro L h; exact absurd rfl h
  | cons m rest ih =>
    intro L _ hasc hnf
    have key : (processMessages backend rest m.update_id).fault = none →
        (processMessages backend rest m.update_id).luid = maxId (m :: rest) := by
      intro hnf2
      cases rest with
      | nil => simp [processMessages, maxId]
      | cons m2 rest2 =>
        have hle : m.update_id ≤ m2.update_id := by
          simp only [ascIds, Bool.and_eq_true, decide_eq_true_eq] at hasc
          exact hasc.1
        have hasc2 : ascIds (m2 :: rest2) = true := by
          simp only [ascIds, Bool.and_eq_true, decide_eq_true_eq] at hasc
          exact hasc.2
        have hmax : m.update_id ≤ maxId (m2 :: rest2) :=
          le_trans hle (by simp only [maxId]; exact Nat.le_max_left _ _)
        have hrec := ih m.update_id (by simp) hasc2 hnf2
        rw [hrec]
        have hm2 : maxId (m :: m2 :: rest2) = max m.update_id (maxId (m2 :: rest2)) := rfl
        rw [hm2]
        omega
    cases h : msgAction backend m with
    | raisedStep msg =>
      rw [processMessages_cons_raised backend m rest L msg h] at hnf
      exact absurd hnf (by simp)
    | skip =>
      rw [processMessages_cons_skip backend m rest L h] at hnf ⊢
      exact key hnf
    | made c =>
      rw [processMessages_cons_made backend m rest L c h] at hnf ⊢
      dsimp only at hnf ⊢
      exact key hnf

/-- For a non-empty batch, the loop body's final cursor variable is exactly
what the message loop computed, whether or not an exception escaped. -/
theorem mainIter_luid_eq (status : Nat) (extra : List (String × String))
    (backend : String → Except String (Option Img)) (C : Nat) (msgs : List TMessage)
    (hne : msgs ≠ []) :
    (mainIter (Except.ok (status, ⟨some msgs, extra⟩)) backend C).last_update_id =
      (processMessages backend msgs C).luid := by
  have hlen : 0 < msgs.length := List.length_pos.mpr hne
  simp only [mainIter, get_prompt_from_tele]
  rw [if_pos hlen]
  rcases hp : processMessages backend msgs C with ⟨luid, calls, g, fault⟩
  cases fault <;> rfl

/-- C4: a prompt that is `None`, empty, or whitespace-only makes
`generate_img` fail with the empty-prompt `ValueError` before the backend
is invoked: the backend call count is zero. -/
theorem empty_prompt_no_backend_call (p : Option String) (backend : Except String (Option Img))
    (h : p = none ∨ ∃ s, p = some s ∧ (pyStrip s).isEmpty = true) :
    generate_img p backend = (GenResult.raised emptyPromptMsg, 0) := by
  rcases h with h | ⟨s, rfl, hs⟩
  · subst h; rfl
  · simp [generate_img, hs]

/-- Witness for C4 at the spec's own example inputs `""` and `"   "`. -/
theorem empty_prompt_no_backend_call_witness :
    generate_img (some "   ") (Except.ok (some ⟨1⟩)) = (GenResult.raised emptyPromptMsg, 0) ∧
    generate_img (some "") (Except.ok (some ⟨1⟩)) = (GenResult.raised emptyPromptMsg, 0) :=
  ⟨empty_prompt_no_backend_call (some "   ") (Except.ok (some ⟨1⟩))
      (Or.inr ⟨"   ", rfl, by decide⟩),
    empty_prompt_no_backend_call (some "") (Except.ok (some ⟨1⟩))
      (Or.inr ⟨"", rfl, by decide⟩)⟩

/-- C5: with one update (`update_id` 5, text "a red cat", sender "Ada",
chat 42) and a succeeding backend, one iteration makes exactly one
`sendImage` call to chat 42 captioned "a red cat" with the binary payload,
and the cursor (offset of the next poll) becomes 6. -/
theorem end_to_end_red_cat :
    mainIter (Except.ok (200, ⟨some [⟨5, some ⟨some "a red cat", some "Ada", some 42⟩⟩], []⟩))
        (fun _ => Except.ok (some ⟨99⟩)) 0 =
      ⟨5, [Call.sendImage "Ada" (Dest.chat 42) "a red cat" ⟨⟨99⟩, 0⟩], 1, 1, none, false, []⟩ ∧
    nextOffset (mainIter
        (Except.ok (200, ⟨some [⟨5, some ⟨some "a red cat", some "Ada", some 42⟩⟩], []⟩))
        (fun _ => Except.ok (some ⟨99⟩)) 0) = 6 := by
  refine ⟨by decide, by decide⟩

/-- C6: a message whose `message` object is absent or has no `text` field
triggers no `generate_img` call and no responder call, yet the iteration
still advances the cursor variable to that message's `update_id`. -/
theorem textless_message_advances_cursor (m : TMessage) (C : Nat)
    (backend : String → Except String (Option Img))
    (h : m.message = none ∨ ∃ b, m.message = some b ∧ b.text = none) :
    mainIter (Except.ok (200, ⟨some [m], []⟩)) backend C =
      ⟨m.update_id, [], 0, 1, none, false, []⟩ := by
  have hskip : msgAction backend m = MsgStep.skip := by
    rcases h with h | ⟨b, hb, ht⟩
    · simp [msgAction, h]
    · simp [msgAction, hb, ht]
  simp [mainIter, get_prompt_from_tele, processMessages, hskip]

/-- Witness for C6 at the spec's scenario: `update_id` 7, no text. -/
theorem textless_message_advances_cursor_witness :
    mainIter (Except.ok (200, ⟨some [⟨7, none⟩], []⟩)) (fun _ => Except.error "down") 0 =
      ⟨7, [], 0, 1, none, false, []⟩ :=
  textless_message_advances_cursor ⟨7, none⟩ 0 (fun _ => Except.error "down") (Or.inl rfl)

/-- C7: for a message with text, the loop routes the generation outcome:
`None` gives one `sendText` with the generic failure message, an advisory
string gives one `sendText` carrying it, and an image gives one `sendImage`
captioned with the original prompt — exactly one responder call each. -/
theorem dispatch_routes_outcomes (m : TMessage) (body : MsgBody) (t : String) (C : Nat)
    (backend : String → Except String (Option Img))
    (hb : m.message = some body) (ht : body.text = some t) :
    ((generate_img (some t) (backend t)).1 = GenResult.noneResult →
      (mainIter (Except.ok (200, ⟨some [m], []⟩)) backend C).calls =
        [Call.sendText (body.from_first_name.getD "Unknown") (destOf body.chat_id)
          genericFailureMsg]) ∧
    (∀ a, (generate_img (some t) (backend t)).1 = GenResult.strResult a →
      (mainIter (Except.ok (200, ⟨some [m], []⟩)) backend C).calls =
        [Call.sendText (body.from_first_name.getD "Unknown") (destOf body.chat_id) a]) ∧
    (∀ buf, (generate_img (some t) (backend t)).1 = GenResult.imgResult buf →
      (mainIter (Except.ok (200, ⟨some [m], []⟩)) backend C).calls =
        [Call.sendImage (body.from_first_name.getD "Unknown") (destOf body.chat_id) t buf]) := by
  refine ⟨fun hres => ?_, fun a hres => ?_, fun buf hres => ?_⟩ <;>
    simp [mainIter, get_prompt_from_tele, processMessages, msgAction, hb, ht, hres]

/-- Witness for C7: a succeeding backend yields the single `sendImage`
call captioned with the prompt. -/
theorem dispatch_routes_outcomes_witness :
    (mainIter (Except.ok (200, ⟨some [⟨1, some ⟨some "cat", some "A", some 8⟩⟩], []⟩))
        (fun _ => Except.ok (some ⟨3⟩)) 0).calls =
      [Call.sendImage "A" (Dest.chat 8) "cat" ⟨⟨3⟩, 0⟩] :=
  (dispatch_routes_outcomes ⟨1, some ⟨some "cat", some "A", some 8⟩⟩
      ⟨some "cat", some "A", some 8⟩ "cat" 0 (fun _ => Except.ok (some ⟨3⟩)) rfl rfl).2.2
    ⟨⟨3⟩, 0⟩ (by decide)

/-- C8: for every transport failure, `get_prompt_from_tele` returns the
empty dict and prints exactly the fixed redacted lines determined by its
classification of the lowercased failure text; being a total function of
the oracle, it raises nothing past its boundary. -/
theorem poller_never_raises (e : String) :
    get_prompt_from_tele (Except.error e) =
      (⟨none, []⟩, pollLogOf (pollClassify (pyLower e))) := by
  cases h1 : hasSub (pyLower e) "connection" || hasSub (pyLower e) "max retries"
      || hasSub (pyLower e) "failed to resolve" <;>
  cases h2 : hasSub (pyLower e) "read timed out" <;>
  cases h3 : hasSub (pyLower e) "ssl" <;>
  simp [get_prompt_from_tele, pollClassify, pollLogOf, h1, h2, h3]

/-- C10: `get_prompt_from_tele` returns a successfully parsed body
unchanged whatever the HTTP status code, and a body without a `result` key
(such as a 401 error body) makes the iteration run its heartbeat branch,
identical to an empty poll: no calls, no classification, cursor kept. -/
theorem poller_ignores_status_code (status : Nat) (body : PollData) (C : Nat)
    (backend : String → Except String (Option Img)) (h : body.result = none) :
    get_prompt_from_tele (Except.ok (status, body)) = (body, []) ∧
    mainIter (Except.ok (status, body)) backend C =
      mainIter (Except.ok (200, ⟨some [], []⟩)) backend C ∧
    (mainIter (Except.ok (status, body)) backend C).heartbeat = true ∧
    (mainIter (Except.ok (status, body)) backend C).faultLogs = [] := by
  refine ⟨rfl, ?_, ?_, ?_⟩ <;> simp [mainIter, get_prompt_from_tele, h]

/-- Witness for C10 at a 401 invalid-credential body. -/
theorem poller_ignores_status_code_witness :
    get_prompt_from_tele (Except.ok (401,
        ⟨none, [("ok", "false"), ("error_code", "401"), ("description", "Unauthorized")]⟩)) =
      (⟨none, [("ok", "false"), ("error_code", "401"), ("description", "Unauthorized")]⟩, []) ∧
    mainIter (Except.ok (401,
        ⟨none, [("ok", "false"), ("error_code", "401"), ("description", "Unauthorized")]⟩))
        (fun _ => Except.error "unused") 3 =
      mainIter (Except.ok (200, ⟨some [], []⟩)) (fun _ => Except.error "unused") 3 ∧
    (mainIter (Except.ok (401,
        ⟨none, [("ok", "false"), ("error_code", "401"), ("description", "Unauthorized")]⟩))
        (fun _ => Except.error "unused") 3).heartbeat = true ∧
    (mainIter (Except.ok (401,
        ⟨none, [("ok", "false"), ("error_code", "401"), ("description", "Unauthorized")]⟩))
        (fun _ => Except.error "unused") 3).faultLogs = [] :=
  poller_ignores_status_code 401
    ⟨none, [("ok", "false"), ("error_code", "401"), ("description", "Unauthorized")]⟩ 3
    (fun _ => Except.error "unused") rfl

/-- C1 counterexample: the failure text "429 Too Many Requests: quota
exceeded" contains both "429" and "quota", yet `generate_img` returns
`None` (a Failure outcome) — not the advisory string — because the
handler's 429/quota branch only logs and falls through to `return None`. -/
theorem generator_quota429_failure_cex :
    hasSub (pyLower "429 Too Many Requests: quota exceeded") "429" = true ∧
    hasSub (pyLower "429 Too Many Requests: quota exceeded") "quota" = true ∧
    (generate_img (some "a cat") (Except.error "429 Too Many Requests: quota exceeded")).1 =
      GenResult.noneResult ∧
    (generate_img (some "a cat") (Except.error "429 Too Many Requests: quota exceeded")).1 ≠
      GenResult.strResult quotaWarningMsg := by
  refine ⟨by decide, by decide, by decide, by decide⟩

/-- C1 amended: a lowercased failure text containing "429" or "quota" that
does not match the earlier AUTH branch is classified QUOTA, but the
generator returns the Failure outcome `None`; the advisory string is
produced only by the later credit-balance/depleted branch, which such a
text never reaches. -/
theorem generator_quota429_yields_failure (e : String)
    (hq : hasSub e "429" = true ∨ hasSub e "quota" = true)
    (hauth : (hasSub e "401" || hasSub e "unauthorized" || hasSub e "token") = false) :
    genClassify e = ErrCat.QUOTA ∧ genHandle e = GenResult.noneResult := by
  rcases hq with hq | hq <;> constructor <;> simp [genClassify, genHandle, hauth, hq]

/-- Witness for the amended C1 at the counterexample's failure text. -/
theorem generator_quota429_yields_failure_witness :
    genClassify "429 too many requests: quota exceeded" = ErrCat.QUOTA ∧
    genHandle "429 too many requests: quota exceeded" = GenResult.noneResult :=
  generator_quota429_yields_failure "429 too many requests: quota exceeded"
    (Or.inl (by decide)) (by decide)

/-- C3 counterexample: the text "ssl handshake failed" is classified SSL by
the poller's and responder's chains but UNKNOWN by the generator's and the
dispatch loop's chains, so the four failure paths do not share one
classification function. -/
theorem classifiers_differ_cex :
    pollClassify "ssl handshake failed" = ErrCat.SSL ∧
    respClassify "ssl handshake failed" = ErrCat.SSL ∧
    genClassify "ssl handshake failed" = ErrCat.UNKNOWN ∧
    mainClassify "ssl handshake failed" = ErrCat.UNKNOWN ∧
    pollClassify "ssl handshake failed" ≠ genClassify "ssl handshake failed" := by
  refine ⟨by decide, by decide, by decide, by decide, by decide⟩

/-- C3 amended: each of the four failure paths does evaluate a fixed,
ordered rule set top-to-bottom with first match wins, but each component has
its own inline rule set and the resulting classification functions differ
pairwise between components. -/
theorem classifiers_first_match_per_component :
    pollClassify = firstMatch pollRules ∧
    genClassify = firstMatch genRules ∧
    respClassify = firstMatch respRules ∧
    mainClassify = firstMatch mainRules ∧
    (∃ s, pollClassify s ≠ genClassify s) ∧
    (∃ s, pollClassify s ≠ mainClassify s) ∧
    (∃ s, genClassify s ≠ respClassify s) :=
  ⟨funext fun _ => rfl, funext fun _ => rfl, funext fun _ => rfl, funext fun _ => rfl,
    ⟨"ssl handshake failed", by decide⟩, ⟨"ssl handshake failed", by decide⟩,
    ⟨"ssl handshake failed", by decide⟩⟩

/-- C9: a message whose text is whitespace-only makes `generate_img` raise
before its own try-block, so the exception escapes to `main`'s outer
handler: the user gets no responder call, the rest of the batch is not
processed, and the iteration takes the 5-unit pause instead of the 1-unit
sleep (the cursor having already advanced to the faulting message's id). -/
theorem blank_prompt_escapes_to_outer_boundary (m : TMessage) (body : MsgBody) (t : String)
    (rest : List TMessage) (C : Nat) (backend : String → Except String (Option Img))
    (hb : m.message = some body) (ht : body.text = some t)
    (hw : (pyStrip t).isEmpty = true) :
    mainIter (Except.ok (200, ⟨some (m :: rest), []⟩)) backend C =
      ⟨m.update_id, [], 1, 5, some emptyPromptMsg, false,
        mainFaultLines (pyLower emptyPromptMsg)⟩ := by
  have hra : msgAction backend m = MsgStep.raisedStep emptyPromptMsg := by
    simp [msgAction, hb, ht, generate_img, hw]
  simp [mainIter, get_prompt_from_tele, processMessages, hra]

/-- Witness for C9: a two-message batch whose first text is "   "; the
second message is never processed and the fault lines are the UNKNOWN
classification of the `ValueError` text plus the 5-second restart notice. -/
theorem blank_prompt_escapes_to_outer_boundary_witness :
    mainIter (Except.ok (200, ⟨some [⟨2, some ⟨some "   ", some "B", some 9⟩⟩,
        ⟨3, some ⟨some "x", some "Cara", some 9⟩⟩], []⟩))
      (fun _ => Except.ok (some ⟨1⟩)) 0 =
      ⟨2, [], 1, 5, some emptyPromptMsg, false, mainFaultLines (pyLower emptyPromptMsg)⟩ :=
  blank_prompt_escapes_to_outer_boundary ⟨2, some ⟨some "   ", some "B", some 9⟩⟩
    ⟨some "   ", some "B", some 9⟩ "   " [⟨3, some ⟨some "x", some "Cara", some 9⟩⟩] 0
    (fun _ => Except.ok (some ⟨1⟩)) rfl rfl (by decide)

/-- C2 counterexample: starting from cursor 5, a poll result whose two
messages carry `update_id`s 7 then 3 leaves the cursor at 3 — below the
starting value and unequal to the batch maximum 7 — because the loop
assigns each message's id unconditionally and keeps the last one. -/
theorem cursor_unsorted_batch_cex :
    (mainIter (Except.ok (200, ⟨some [⟨7, none⟩, ⟨3, none⟩], []⟩))
        (fun _ => Except.error "down") 5).last_update_id = 3 ∧
    ¬(5 ≤ (mainIter (Except.ok (200, ⟨some [⟨7, none⟩, ⟨3, none⟩], []⟩))
        (fun _ => Except.error "down") 5).last_update_id) ∧
    (mainIter (Except.ok (200, ⟨some [⟨7, none⟩, ⟨3, none⟩], []⟩))
        (fun _ => Except.error "down") 5).last_update_id ≠ maxId [⟨7, none⟩, ⟨3, none⟩] := by
  refine ⟨by decide, by decide, by decide⟩

/-- C2 amended: the loop sets the cursor to the update_id of the last
message it reads, so the claim holds only under the platform's contract: if
the batch's ids are ascending and all exceed the starting cursor C (as a
poll at offset C + 1 returns), the cursor after one iteration is at least
C, and when additionally no message's processing raises it equals the
batch's maximum update_id. -/
theorem cursor_monotone_sorted_batch (C status : Nat) (extra : List (String × String))
    (msgs : List TMessage) (backend : String → Except String (Option Img))
    (hne : msgs ≠ []) (hgt : allIdsGt C msgs = true) (hasc : ascIds msgs = true)
    (hnf : (processMessages backend msgs C).fault = none) :
    C ≤ (mainIter (Except.ok (status, ⟨some msgs, extra⟩)) backend C).last_update_id ∧
    (mainIter (Except.ok (status, ⟨some msgs, extra⟩)) backend C).last_update_id =
      maxId msgs := by
  have hl := mainIter_luid_eq status extra backend C msgs hne
  constructor
  · rw [hl]
    rcases processMessages_luid_mem backend msgs C with h | ⟨m, hm, he⟩
    · rw [h]
    · have hc : C < m.update_id := by
        simp only [allIdsGt, List.all_eq_true, decide_eq_true_eq] at hgt
        exact hgt m hm
      rw [he]
      exact Nat.le_of_lt hc
  · rw [hl]
    exact processMessages_luid_max backend msgs C hne hasc hnf

/-- Witness for the amended C2: cursor 5, ascending batch with ids 6 and 7,
no faults; the cursor lands on the maximum 7. -/
theorem cursor_monotone_sorted_batch_witness :
    5 ≤ (mainIter (Except.ok (200, ⟨some [⟨6, none⟩, ⟨7, none⟩], []⟩))
        (fun _ => Except.error "down") 5).last_update_id ∧
    (mainIter (Except.ok (200, ⟨some [⟨6, none⟩, ⟨7, none⟩], []⟩))
        (fun _ => Except.error "down") 5).last_update_id = maxId [⟨6, none⟩, ⟨7, none⟩] :=
  cursor_monotone_sorted_batch 5 200 [] [⟨6, none⟩, ⟨7, none⟩] (fun _ => Except.error "down")
    (by decide) (by decide) (by decide) (by decide)
